import Mathlib

set_option maxHeartbeats 1000000

/-
  A shallow embedding of the formatron type/validation hierarchy and ref
  algebra: the base data type (name, option set, value resolution,
  validation pipeline) from the DataType module, and the immutable ref
  variants (direct key, computed view, list find, list filter, list map)
  from src/src/refs.js, with their read and write semantics over persistent
  containers.
-/

namespace Formatron

/-- JavaScript scalar values handled by the base data type: undefined, null,
booleans, (integer) numbers, strings, and opaque function values identified
by a token (JavaScript compares functions by reference, modelled as token
equality). -/
inductive SValue where
  | undef
  | null
  | bool (b : Bool)
  | num (n : Int)
  | str (s : String)
  | fn (id : Nat)
deriving DecidableEq

/-- JavaScript truthiness for scalar values. -/
def truthyS : SValue → Bool
  | .undef => false
  | .null => false
  | .bool b => b
  | .num n => n != 0
  | .str s => s != ""
  | .fn _ => true

/-- The string form of a scalar value (JavaScript toString); the source text
of a function value is abstracted to a fixed token, and the undefined and
null cases are unreachable behind the truthiness guard of getDisplay. -/
def jsToString : SValue → String
  | .undef => ""
  | .null => ""
  | .bool b => if b then "true" else "false"
  | .num n => toString n
  | .str s => s
  | .fn _ => "function"

/-- Whether a value carries a toString method (every value except undefined
and null). -/
def hasToString : SValue → Bool
  | .undef => false
  | .null => false
  | _ => true

/-- The base data type: a unique name together with an immutable option set,
modelled as an insertion-ordered association list from option keys to
values (DataType constructor in the DataType module). -/
structure DataType where
  name : String
  options : List (String × SValue)
deriving DecidableEq

namespace DataType

/-- options.get(key, dflt): the value at the first binding of the key, or
the supplied default when the key is absent. -/
def optGet (dt : DataType) (key : String) (dflt : SValue) : SValue :=
  match dt.options.lookup key with
  | some v => v
  | none => dflt

/-- isRequired(): options.get(required, false). -/
def isRequired (dt : DataType) : SValue := dt.optGet "required" (.bool false)

/-- isGenerated(): options.get(generated, false). -/
def isGenerated (dt : DataType) : SValue := dt.optGet "generated" (.bool false)

/-- getDefaultValue(defaultValue = null): the defaultValue option when it is
present and defined, else the fallback argument; calling with undefined for
the argument selects the JavaScript default parameter null. -/
def getDefaultValue (dt : DataType) (fallback : SValue) : SValue :=
  let fallback := if fallback = SValue.undef then SValue.null else fallback
  match dt.options.lookup "defaultValue" with
  | some odv => if odv = SValue.undef then fallback else odv
  | none => fallback

/-- hasValue(value, checkDefault): false when the value is undefined, null,
or, when checkDefault holds, strictly equal to the default value; otherwise
true. -/
def hasValue (dt : DataType) (value : SValue) (checkDefault : Bool) : Bool :=
  !(decide (value = SValue.undef) || decide (value = SValue.null) ||
    (decide (value = dt.getDefaultValue SValue.undef) && checkDefault))

/-- getValue(value, defaultValue): the first defined value among the
supplied value and, unless the type is generated, the default value;
Array.prototype.find yields undefined when nothing is defined. -/
def getValue (dt : DataType) (value defaultValue : SValue) : SValue :=
  let values : List SValue :=
    if truthyS dt.isGenerated then [value]
    else [value, dt.getDefaultValue defaultValue]
  match values.find? (fun v => !(decide (v = SValue.undef))) with
  | some v => v
  | none => SValue.undef

/-- getDisplay(value): the effective value rendered through toString when it
is truthy and carries a toString, else the empty string. -/
def getDisplay (dt : DataType) (value : SValue) : String :=
  let value := dt.getValue value SValue.undef
  if truthyS value && hasToString value then jsToString value else ""

end DataType

/-- A validation error: a catalog message, the offending data type, and the
offending value. -/
structure ValidationError where
  message : String
  type : DataType
  value : SValue
deriving DecidableEq

namespace validationErrors

/-- The required entry of the validation message catalog. -/
def required : String := "This field is required"

end validationErrors

/-- validate(value, callback): resolve the effective value; pass immediately
when it strictly equals the default yet still counts as a value; when the
value is absent, pass for generated types, produce the required error for
required types, and pass otherwise; when the value is present, defer to the
optional callback, whose result is the final outcome. -/
def DataType.validate (dt : DataType) (value : SValue)
    (callback : Option (Unit → Option ValidationError)) : Option ValidationError :=
  let value := dt.getValue value SValue.undef
  if decide (value = dt.getDefaultValue SValue.undef) && dt.hasValue value false then
    none
  else if !(dt.hasValue value false) then
    if truthyS dt.isGenerated then none
    else if truthyS dt.isRequired then
      some ⟨validationErrors.required, dt, value⟩
    else none
  else
    match callback with
    | some cb => cb ()
    | none => none

/-- A value accepted by hasValue with the default check disabled is defined. -/
lemma hasValue_ne_undef {dt : DataType} {v : SValue}
    (h : dt.hasValue v false = true) : v ≠ SValue.undef := by
  intro h2
  subst h2
  simp [DataType.hasValue] at h

/-- C3: a data type with no defaultValue option, applied to an absent value,
validates to the required error when required is truthy and generated is
falsy, and validates to no error when generated is truthy. -/
theorem C3_required_absent (dt : DataType) (v : SValue)
    (hv : v = SValue.undef ∨ v = SValue.null)
    (hd : dt.options.lookup "defaultValue" = none) :
    (truthyS dt.isRequired = true → truthyS dt.isGenerated = false →
      dt.validate v none = some ⟨validationErrors.required, dt, SValue.null⟩)
    ∧ (truthyS dt.isGenerated = true → dt.validate v none = none) := by
  constructor
  · intro hreq hgen
    rcases hv with h | h <;> subst h <;>
      simp [DataType.validate, DataType.getValue, DataType.getDefaultValue,
        DataType.hasValue, hd, hgen, hreq]
  · intro hgen
    rcases hv with h | h <;> subst h <;>
      simp [DataType.validate, DataType.getValue, DataType.getDefaultValue,
        DataType.hasValue, hd, hgen]

/-- A required scalar data type, matching the spec scenario for the email
field. -/
def dtEmailReq : DataType := ⟨"email", [("required", SValue.bool true)]⟩

/-- A generated scalar data type. -/
def dtGen : DataType := ⟨"id", [("generated", SValue.bool true)]⟩

/-- Witness for C3 at the concrete required and generated types. -/
theorem C3_required_absent_witness :
    dtEmailReq.validate SValue.undef none
        = some ⟨validationErrors.required, dtEmailReq, SValue.null⟩
    ∧ dtGen.validate SValue.undef none = none :=
  ⟨(C3_required_absent dtEmailReq SValue.undef (Or.inl rfl) (by decide)).1
      (by decide) (by decide),
   (C3_required_absent dtGen SValue.undef (Or.inl rfl) (by decide)).2 (by decide)⟩

/-- C6: a data type whose option set carries a defaultValue X, applied to the
explicitly supplied value X, validates to no error whenever hasValue of X
with the default check disabled holds, regardless of the required option and
of any supplied callback: the required and absence checks are never
reached. -/
theorem C6_default_short_circuit (dt : DataType) (X : SValue)
    (cb : Option (Unit → Option ValidationError))
    (hd : dt.options.lookup "defaultValue" = some X)
    (hX : dt.hasValue X false = true) :
    dt.validate X cb = none := by
  have hne : X ≠ SValue.undef := hasValue_ne_undef hX
  cases hg : truthyS dt.isGenerated <;>
    simp [DataType.validate, DataType.getValue, DataType.getDefaultValue,
      hd, hg, hne, hX]

/-- A data type with a default value, a required flag, and nothing else. -/
def dtDefault : DataType :=
  ⟨"count", [("defaultValue", SValue.num 5), ("required", SValue.bool true)]⟩

/-- Witness for C6 at a required type with default 5 and a callback that
would report an error if it ran. -/
theorem C6_default_short_circuit_witness :
    dtDefault.validate (SValue.num 5)
      (some (fun _ => some ⟨"custom", dtDefault, SValue.num 5⟩)) = none :=
  C6_default_short_circuit dtDefault (SValue.num 5) _ (by decide) (by decide)

/-- A data type with an empty option set. -/
def dtPlain : DataType := ⟨"n", []⟩

/-- C8 counterexample: on the value 0 the effective value is the non-absent
number 0, whose string form is the non-empty string 0, yet getDisplay
returns the empty string, because the source guards the toString call behind
JavaScript truthiness of the value, and 0 is falsy. -/
theorem C8_display_zero_counterexample :
    dtPlain.getDisplay (SValue.num 0) = ""
    ∧ dtPlain.getValue (SValue.num 0) SValue.undef = SValue.num 0
    ∧ jsToString (SValue.num 0) = "0"
    ∧ hasToString (SValue.num 0) = true
    ∧ SValue.num 0 ≠ SValue.undef ∧ SValue.num 0 ≠ SValue.null
    ∧ ("0" : String) ≠ "" := by
  refine ⟨by decide, by decide, by decide, by decide, by decide, by decide, by decide⟩

/-- C8 amended: getDisplay returns the string form of the effective value
exactly when that value is truthy, and the empty string whenever it is falsy
(absent, false, zero, or the empty string) or has no string form. -/
theorem C8_display_truthy_amended (dt : DataType) (v : SValue) :
    dt.getDisplay v =
      if truthyS (dt.getValue v SValue.undef) then
        jsToString (dt.getValue v SValue.undef)
      else "" := by
  unfold DataType.getDisplay
  cases h : dt.getValue v SValue.undef <;>
    simp [truthyS, hasToString, jsToString]

/-- C10: the base validate never consults the validator option: for any two
data types of the same name whose option sets agree on every key other than
validator, validation with no explicit callback produces the same outcome
(same presence of an error, same message, same referenced type name, same
offending value). -/
theorem C10_validator_option_ignored (dt1 dt2 : DataType) (v : SValue)
    (hn : dt1.name = dt2.name)
    (ho : ∀ k, k ≠ "validator" → dt1.options.lookup k = dt2.options.lookup k) :
    Option.map (fun e => (e.message, e.type.name, e.value)) (dt1.validate v none)
      = Option.map (fun e => (e.message, e.type.name, e.value)) (dt2.validate v none) := by
  have h1 := ho "required" (by decide)
  have h2 := ho "generated" (by decide)
  have h3 := ho "defaultValue" (by decide)
  have hreq : dt1.isRequired = dt2.isRequired := by
    simp [DataType.isRequired, DataType.optGet, h1]
  have hgen : dt1.isGenerated = dt2.isGenerated := by
    simp [DataType.isGenerated, DataType.optGet, h2]
  have hdef : ∀ f, dt1.getDefaultValue f = dt2.getDefaultValue f := by
    intro f
    simp [DataType.getDefaultValue, h3]
  have hval : ∀ x d, dt1.getValue x d = dt2.getValue x d := by
    intro x d
    simp [DataType.getValue, hgen, hdef]
  have hhas : ∀ x c, dt1.hasValue x c = dt2.hasValue x c := by
    intro x c
    simp [DataType.hasValue, hdef]
  simp only [DataType.validate, hval, hdef, hhas, hgen, hreq]
  split <;> try rfl
  split <;> try rfl
  split <;> try rfl
  split <;> simp [hn]

/-- A required data type that also carries a validator function token. -/
def dtWithValidator : DataType :=
  ⟨"f", [("required", SValue.bool true), ("validator", SValue.fn 0)]⟩

/-- The same data type without the validator option. -/
def dtNoValidator : DataType := ⟨"f", [("required", SValue.bool true)]⟩

/-- Witness for C10: adding a validator option to a required type changes
nothing about the outcome of validate on an absent value. -/
theorem C10_validator_option_ignored_witness :
    Option.map (fun e => (e.message, e.type.name, e.value))
        (dtWithValidator.validate SValue.undef none)
      = Option.map (fun e => (e.message, e.type.name, e.value))
        (dtNoValidator.validate SValue.undef none) :=
  C10_validator_option_ignored dtWithValidator dtNoValidator SValue.undef rfl (by
    intro k hk
    by_cases h : k = "required"
    · subst h
      rfl
    · have h2 : (k == "required") = false := by simp [h]
      have h3 : (k == "validator") = false := by simp [hk]
      simp [dtWithValidator, dtNoValidator, List.lookup, h2, h3])

/-- JavaScript values flowing through the immutable refs: scalars plus the
persistent containers of the substrate, an Immutable List and an Immutable
Map, the latter modelled as an insertion-ordered association list. -/
inductive IValue where
  | undef
  | null
  | bool (b : Bool)
  | num (n : Int)
  | str (s : String)
  | list (xs : List IValue)
  | map (entries : List (String × IValue))

/-- JavaScript truthiness for ref values; container objects are truthy. -/
def truthyI : IValue → Bool
  | .undef => false
  | .null => false
  | .bool b => b
  | .num n => n != 0
  | .str s => s != ""
  | .list _ => true
  | .map _ => true

/-- Immutable.isImmutable: true exactly for the persistent containers. -/
def isImmutable : IValue → Bool
  | .list _ => true
  | .map _ => true
  | _ => false

/-- container.get(key) on an Immutable Map: the value at the first binding
of the key, or undefined when the key is absent. -/
def jsMapGet : List (String × IValue) → String → IValue
  | [], _ => .undef
  | (k2, v) :: rest, k => if k = k2 then v else jsMapGet rest k

/-- container.set(key, value) on an Immutable Map: replace the first binding
of the key in place when present, otherwise append a new binding. -/
def jsMapSet : List (String × IValue) → String → IValue → List (String × IValue)
  | [], k, v => [(k, v)]
  | (k2, v2) :: rest, k, v =>
    if k = k2 then (k2, v) :: rest else (k2, v2) :: jsMapSet rest k v

/-- Whether a string key is a canonical decimal index, the keys that the
wrapIndex coercion of the substrate turns into a list index; keys with a
sign or other non-canonical numeric spellings are outside the refs the
claims exercise. -/
def isIndexKey (key : String) : Bool :=
  !key.data.isEmpty && key.data.all Char.isDigit

/-- The numeric value of a canonical decimal index key. -/
def indexKeyToNat (key : String) : Nat :=
  key.data.foldl (fun n c => n * 10 + (c.toNat - 48)) 0

/-- container.set(key, value) for a string key on an Immutable List: a
canonical numeric key replaces the indexed element, padding with undefined
past the end; any other key coerces to NaN and the set is a silent no-op
that returns the list unchanged. -/
def jsListSet (xs : List IValue) (key : String) (v : IValue) : List IValue :=
  if isIndexKey key then
    let i := indexKeyToNat key
    if i < xs.length then xs.set i v
    else xs ++ List.replicate (i - xs.length) IValue.undef ++ [v]
  else xs

/-- container.get(key) for a string key on an Immutable List: wrapIndex
coerces the key to a number, so a canonical numeric key reads the indexed
element (undefined out of range) while any other key coerces to NaN and the
read silently yields undefined. -/
def jsListGet (xs : List IValue) (key : String) : IValue :=
  if isIndexKey key then
    match xs.get? (indexKeyToNat key) with
    | some v => v
    | none => .undef
  else .undef

namespace ImmutableRef

/-- getValue(dataType, dataValue): null for an absent (falsy) container, the
container itself for the empty (identity) ref, else the keyed entry of the
container (src/src/refs.js lines 153 to 163); a Map receiver looks the key
up, a List receiver coerces the key through wrapIndex, and a truthy scalar
receiver has no get method and raises a TypeError. -/
def getValue (ref : String) (dataValue : IValue) : Except String IValue :=
  if !truthyI dataValue then .ok .null
  else if ref = "" then .ok dataValue
  else
    match dataValue with
    | .map entries => .ok (jsMapGet entries ref)
    | .list xs => .ok (jsListGet xs ref)
    | _ => .error "TypeError: keyed get on a scalar receiver"

/-- The message of the error thrown by setValue on an absent container; the
source template also interpolates the bound getDisplay method object, which
is abstracted away here. -/
def setValueNullMessage : String := "Cannot set value for on a null object"

/-- setValue(dataType, dataValue, childValue): throws on an absent (falsy)
container before any other check, returns the container unchanged for the
empty (identity) ref, else sets the keyed entry (src/src/refs.js lines 165
to 175); a Map receiver binds the key, a List receiver coerces the key
through wrapIndex (a non-index key is a silent no-op), and a truthy scalar
receiver has no set method and raises a TypeError. -/
def setValue (ref : String) (dataValue childValue : IValue) : Except String IValue :=
  if !truthyI dataValue then .error setValueNullMessage
  else if ref = "" then .ok dataValue
  else
    match dataValue with
    | .map entries => .ok (.map (jsMapSet entries ref childValue))
    | .list xs => .ok (.list (jsListSet xs ref childValue))
    | _ => .error "TypeError: keyed set on a scalar receiver"

end ImmutableRef

/-- Setting a key and reading it back on the association-list map yields the
value just written. -/
lemma jsMapGet_jsMapSet_self (es : List (String × IValue)) (k : String)
    (v : IValue) : jsMapGet (jsMapSet es k v) k = v := by
  induction es with
  | nil => simp [jsMapSet, jsMapGet]
  | cons head rest ih =>
    obtain ⟨k2, v2⟩ := head
    by_cases h : k = k2
    · simp [jsMapSet, jsMapGet, h]
    · simp [jsMapSet, jsMapGet, h, ih]

/-- C5 counterexample: on an Immutable List container with the non-index key
k, the source round trip fails silently: setValue is a no-op that returns
the original list (wrapIndex coerces the key to NaN), getValue on that
result returns undefined, and undefined differs from the written value 1,
so the claim quantified over every persistent container is false. -/
theorem C5_list_receiver_counterexample :
    ImmutableRef.setValue "k" (.list [.num 0]) (.num 1) = .ok (.list [.num 0])
    ∧ ImmutableRef.getValue "k" (.list [.num 0]) = .ok IValue.undef
    ∧ IValue.undef ≠ IValue.num 1 := by
  refine ⟨rfl, rfl, by simp⟩

/-- C5 amended: for a keyed persistent container (an Immutable Map) and a
non-empty key, the direct-key ref setValue builds the functional update of
the original container (the original association list is untouched; the
result is a new value), and getValue applied to the produced container at
that key returns exactly the value that was written. -/
theorem C5_direct_key_round_trip (es : List (String × IValue)) (k : String)
    (v : IValue) (hk : k ≠ "") :
    ImmutableRef.setValue k (.map es) v = .ok (.map (jsMapSet es k v))
    ∧ ImmutableRef.getValue k (.map (jsMapSet es k v)) = .ok v := by
  constructor
  · simp [ImmutableRef.setValue, truthyI, hk]
  · simp [ImmutableRef.getValue, truthyI, hk, jsMapGet_jsMapSet_self]

/-- Witness for C5 on the empty map at key k with value 1. -/
theorem C5_direct_key_round_trip_witness :
    ImmutableRef.setValue "k" (.map []) (.num 1) = .ok (.map [("k", .num 1)])
    ∧ ImmutableRef.getValue "k" (.map [("k", .num 1)]) = .ok (.num 1) :=
  C5_direct_key_round_trip [] "k" (.num 1) (by decide)

/-- C9: setValue on an absent (null or undefined) container throws the
null-object error for every ref, the identity ref with the empty key
included, because the absent-container check precedes the identity-ref
check; getValue on the same container returns null without throwing. -/
theorem C9_absent_container (ref : String) (c child : IValue)
    (hc : c = IValue.null ∨ c = IValue.undef) :
    ImmutableRef.setValue ref c child = .error ImmutableRef.setValueNullMessage
    ∧ ImmutableRef.getValue ref c = .ok .null := by
  rcases hc with h | h <;> subst h <;> exact ⟨rfl, rfl⟩

/-- Witness for C9 at the identity ref over the null container. -/
theorem C9_absent_container_witness :
    ImmutableRef.setValue "" IValue.null (.num 0)
        = .error ImmutableRef.setValueNullMessage
    ∧ ImmutableRef.getValue "" IValue.null = .ok .null :=
  C9_absent_container "" IValue.null (.num 0) (Or.inl rfl)

/-- The concrete ref variants of the source hierarchy: ImmutableRef,
ImmutableViewRef, ImmutableListFindRef, ImmutableListFilterRef,
ImmutableListMapRef. -/
inductive RefVariant where
  | direct
  | view
  | listFind
  | listFilter
  | listMap
deriving DecidableEq

/-- isSingleRef: true in the base class and inherited by the view and
list-find variants; ImmutableListFilterRef and ImmutableListMapRef override
it to false (src/src/refs.js lines 145 to 147, 323 to 325, 360 to 362). -/
def isSingleRef : RefVariant → Bool
  | .listFilter => false
  | .listMap => false
  | _ => true

/-- isMultiRef: implemented once in the base class as the negation of the
dynamically dispatched isSingleRef (src/src/refs.js lines 149 to 151). -/
def isMultiRef (r : RefVariant) : Bool := !isSingleRef r

/-- C7: for every ref variant, isSingleRef is the negation of isMultiRef;
list-filter and list-map are multi, while direct-key, computed-view, and
list-find are single. -/
theorem C7_single_multi_partition :
    (∀ r : RefVariant, isSingleRef r = !isMultiRef r)
    ∧ isMultiRef .listFilter = true ∧ isMultiRef .listMap = true
    ∧ isSingleRef .direct = true ∧ isSingleRef .view = true
    ∧ isSingleRef .listFind = true := by
  refine ⟨fun r => ?_, rfl, rfl, rfl, rfl, rfl⟩
  cases r <;> rfl

/-- The operand shapes that reach the instanceof test inside checkValidData:
the boolean primitive produced by the prefixed negation, or a data-type
object tagged with whether it is an instance of the list data type. -/
inductive InstanceofOperand where
  | boolPrim (b : Bool)
  | dataTypeObj (isListType : Bool)

/-- x instanceof Types.data.list: true exactly for a list data-type object;
a primitive boolean is never an instance of any class. -/
def instanceofListType : InstanceofOperand → Bool
  | .boolPrim _ => false
  | .dataTypeObj isList => isList

/-- JavaScript truthiness of the operand; data-type objects are truthy. -/
def truthyOperand : InstanceofOperand → Bool
  | .boolPrim b => b
  | .dataTypeObj _ => true

/-- checkValidData(dataType, dataValue): the source guard reads
!dataType instanceof Types.data.list, which parses as
(!dataType) instanceof Types.data.list, so the first test asks whether a
boolean primitive is an instance of the list data type and can never throw;
the second test throws when the value is falsy or not an Immutable
collection (src/src/refs.js lines 248 to 256). -/
def checkValidData (dataType : InstanceofOperand) (dataValue : IValue)
    (label : String) : Except String Unit :=
  if instanceofListType (.boolPrim (!truthyOperand dataType)) then
    .error "Cannot reference a list with a non-list based data type"
  else if !truthyI dataValue || !isImmutable dataValue then
    .error ("Cannot reference a non-list with a list ref of " ++ label)
  else .ok ()

/-- list.find(predicate): the first item whose predicate result is truthy,
or undefined when none is. -/
def jsFind (p : IValue → Bool) : List IValue → IValue
  | [] => .undef
  | x :: xs => if p x then x else jsFind p xs

/-- The static method field of the list-ref subclasses. -/
inductive ListRefMethod where
  | find
  | filter
  | mapItems

/-- ImmutableListRef.getValue: validate the data through checkValidData,
then return the container unchanged when no static method is set, or apply
find, filter, or map over the items with the view as predicate or transform
(src/src/refs.js lines 267 to 278); the evaluation of the view through
RenderData and valueRenderers is abstracted as an injected function from
items to result values, whose truthiness drives find and filter. -/
def listRefGetValue (method : Option ListRefMethod) (view : IValue → IValue)
    (dataType : InstanceofOperand) (dataValue : IValue) (label : String) :
    Except String IValue :=
  match checkValidData dataType dataValue label with
  | .error e => .error e
  | .ok _ =>
    match method with
    | none => .ok dataValue
    | some m =>
      match dataValue, m with
      | .list xs, .find => .ok (jsFind (fun it => truthyI (view it)) xs)
      | .list xs, .filter => .ok (.list (xs.filter (fun it => truthyI (view it))))
      | .list xs, .mapItems => .ok (.list (xs.map view))
      | .map es, .find => .ok (jsFind (fun it => truthyI (view it)) (es.map Prod.snd))
      | .map es, .filter => .ok (.map (es.filter (fun e => truthyI (view e.2))))
      | .map es, .mapItems => .ok (.map (es.map (fun e => (e.1, view e.2))))
      | _, _ => .error "unreachable: checkValidData admits only Immutable collections"

/-- list.findIndex(predicate): the index of the first item whose predicate
result is truthy, counted from the supplied offset, or -1 when none is. -/
def jsFindIndexFrom (p : IValue → Bool) : List IValue → Int → Int
  | [], _ => -1
  | x :: xs, k => if p x then k else jsFindIndexFrom p xs (k + 1)

/-- list.findIndex(predicate) from the start of the list. -/
def jsFindIndex (p : IValue → Bool) (l : List IValue) : Int :=
  jsFindIndexFrom p l 0

/-- ImmutableListFindRef.setValue: find the first index whose view result is
truthy; replace that index when one was found, else push the new item at the
end (src/src/refs.js lines 304 to 317); no validity check runs on this
path. -/
def listFindSetValue (view : IValue → IValue) (l : List IValue)
    (newItem : IValue) : List IValue :=
  let index := jsFindIndex (fun item => truthyI (view item)) l
  if 0 ≤ index then l.set index.toNat newItem else l ++ [newItem]

/-- ImmutableListFilterRef.setValue: collect the indexes whose view result
is truthy, then map over the list writing the new item at collected indexes
and — exactly as the source does — the bare numeric index at every other
position (src/src/refs.js lines 331 to 354); no validity check runs on this
path. -/
def listFilterSetValue (view : IValue → IValue) (l : List IValue)
    (newItem : IValue) : List IValue :=
  let indexes := (l.enum.filter (fun p => truthyI (view p.2))).map Prod.fst
  l.enum.map (fun p =>
    if indexes.contains p.1 then newItem else .num (Int.ofNat p.1))

/-- A predicate view matching exactly the items equal to the string A. -/
def viewMatchA : IValue → IValue
  | .str s => .bool (s == "A")
  | _ => .bool false

/-- C1: list-filter setValue at the failing input: on the list [A, B, A]
with a predicate matching A and new item N, the source returns [N, 1, N],
so the non-matching position 1 holds its own numeric index instead of its
original item B, contradicting the claimed [N, B, N]. -/
theorem C1_filter_setValue_index_bug :
    listFilterSetValue viewMatchA [.str "A", .str "B", .str "A"] (.str "N")
        = [.str "N", .num 1, .str "N"]
    ∧ listFilterSetValue viewMatchA [.str "A", .str "B", .str "A"] (.str "N")
        ≠ [.str "N", .str "B", .str "N"] := by
  constructor
  · rfl
  · intro h
    rw [show listFilterSetValue viewMatchA [.str "A", .str "B", .str "A"] (.str "N")
          = [.str "N", .num 1, .str "N"] from rfl] at h
    simp at h

/-- C2: the list refs do not fail fast on a non-list owner data type:
getValue over a find ref with a non-list data-type object and a valid
Immutable list evaluates the predicate and returns the found item instead
of throwing, and list-find setValue performs its write without any validity
check; the misparenthesised guard and the missing setValue check leave the
claimed precondition unenforced. -/
theorem C2_no_fail_fast_on_non_list_type :
    listRefGetValue (some .find) (fun _ => .bool true)
        (.dataTypeObj false) (.list [.str "A"]) "v" = .ok (.str "A")
    ∧ listFindSetValue (fun _ => .bool true) [.str "A"] (.str "N")
        = [.str "N"] :=
  ⟨rfl, rfl⟩

/-- findIndex returns -1 when no item satisfies the predicate. -/
lemma jsFindIndexFrom_eq_neg_one (p : IValue → Bool) :
    ∀ (l : List IValue) (k : Int), (∀ x ∈ l, p x = false) →
      jsFindIndexFrom p l k = -1 := by
  intro l
  induction l with
  | nil => intro k _; rfl
  | cons x xs ih =>
    intro k h
    have hx : p x = false := h x (by simp)
    simp only [jsFindIndexFrom, hx, Bool.false_eq_true, if_false]
    exact ih (k + 1) (fun y hy => h y (by simp [hy]))

/-- findIndex returns the offset plus the least index satisfying the
predicate, when one exists. -/
lemma jsFindIndexFrom_eq_first (p : IValue → Bool) :
    ∀ (l : List IValue) (i : Nat) (k : Int) (hi : i < l.length),
      p l[i] = true →
      (∀ j (hj : j < l.length), j < i → p l[j] = false) →
      jsFindIndexFrom p l k = k + i := by
  intro l
  induction l with
  | nil => intro i k hi; exact absurd hi (Nat.not_lt_zero i)
  | cons x xs ih =>
    intro i k hi hp hmin
    cases i with
    | zero =>
      have hx : p x = true := by simpa using hp
      simp [jsFindIndexFrom, hx]
    | succ m =>
      have hx : p x = false := hmin 0 (by simp) (Nat.succ_pos m)
      have hi2 : m < xs.length := by
        simpa [Nat.succ_lt_succ_iff] using hi
      have hp2 : p xs[m] = true := by simpa using hp
      have hmin2 : ∀ j (hj : j < xs.length), j < m → p xs[j] = false := by
        intro j hj hjm
        have := hmin (j + 1) (by simpa [Nat.succ_lt_succ_iff] using hj)
          (Nat.succ_lt_succ hjm)
        simpa using this
      have hrec := ih m (k + 1) hi2 hp2 hmin2
      simp only [jsFindIndexFrom, hx, Bool.false_eq_true, if_false, hrec]
      omega

/-- C4: list-find setValue evaluates the predicate left-to-right: when no
item satisfies it, the result is the original list with the new item
appended; when some item does, the result keeps the original length, holds
the new item at the least satisfying index, and keeps every other position
unchanged. -/
theorem C4_list_find_upsert (view : IValue → IValue) (l : List IValue)
    (n : IValue) :
    ((∀ x ∈ l, truthyI (view x) = false) →
      listFindSetValue view l n = l ++ [n])
    ∧ (∀ i (hi : i < l.length), truthyI (view l[i]) = true →
        (∀ j (hj : j < l.length), j < i → truthyI (view l[j]) = false) →
        (listFindSetValue view l n).length = l.length
        ∧ (listFindSetValue view l n).get? i = some n
        ∧ ∀ j, j ≠ i → (listFindSetValue view l n).get? j = l.get? j) := by
  constructor
  · intro h
    have hidx : jsFindIndex (fun item => truthyI (view item)) l = -1 :=
      jsFindIndexFrom_eq_neg_one _ l 0 h
    simp [listFindSetValue, hidx]
  · intro i hi hp hmin
    have hidx : jsFindIndex (fun item => truthyI (view item)) l = (i : Int) := by
      have := jsFindIndexFrom_eq_first (fun item => truthyI (view item)) l i 0
        hi hp hmin
      simpa using this
    have hset : listFindSetValue view l n = l.set i n := by
      simp [listFindSetValue, hidx]
    rw [hset]
    refine ⟨List.length_set l i n, ?_, ?_⟩
    · simp [List.get?_eq_getElem?, List.getElem?_set_eq_of_lt n hi]
    · intro j hj
      simp [List.get?_eq_getElem?, List.getElem?_set_ne (fun h => hj h.symm)]

/-- A predicate view matching exactly the items equal to the string B. -/
def viewMatchB : IValue → IValue
  | .str s => .bool (s == "B")
  | _ => .bool false

/-- A predicate view matching nothing. -/
def viewMatchNone : IValue → IValue := fun _ => .bool false

/-- Witness for C4 on the list [A, B, C]: a predicate matching B replaces
position 1 and keeps the rest, and a predicate matching nothing appends. -/
theorem C4_list_find_upsert_witness :
    ((listFindSetValue viewMatchB [.str "A", .str "B", .str "C"]
        (.str "N")).length
      = ([.str "A", .str "B", .str "C"] : List IValue).length
    ∧ (listFindSetValue viewMatchB [.str "A", .str "B", .str "C"]
        (.str "N")).get? 1 = some (.str "N")
    ∧ ∀ j, j ≠ 1 →
        (listFindSetValue viewMatchB [.str "A", .str "B", .str "C"]
          (.str "N")).get? j
          = ([.str "A", .str "B", .str "C"] : List IValue).get? j)
    ∧ listFindSetValue viewMatchNone [.str "A", .str "B", .str "C"] (.str "N")
        = [.str "A", .str "B", .str "C", .str "N"] :=
  ⟨(C4_list_find_upsert viewMatchB [.str "A", .str "B", .str "C"] (.str "N")).2
      1 (by decide) (by decide)
      (by
        intro j hj hj1
        have hj0 : j = 0 := by omega
        subst hj0
        rfl),
   (C4_list_find_upsert viewMatchNone [.str "A", .str "B", .str "C"]
      (.str "N")).1 (by intro x hx; fin_cases hx <;> decide)⟩

end Formatron
